import Mathlib

/-!
Verification of the review/revision state machine of `workflows/hybrid_workflow.py`.

This file gives a shallow embedding of the revision-control core of the
hybrid workflow: the version store (`save_version_to_history`), the quality
review node (`quality_check_node`), the revision node (`revision_node`) and
the two routing functions (`route_after_quality_check`,
`route_after_revision`), together with proofs of the specified properties
(termination bound, forced-accept precedence, REJECT safety, empty-draft
failure, revision counting, monotone versioning, degraded-verdict parsing).

Modelling conventions:
* The Python state dict (`ResearchState` TypedDict) becomes a Lean
  structure.  Keys that the modelled functions read with
  `state.get(key, default)` and that may be absent become `Option` fields
  (absent = `none`); list-valued keys whose default is `[]` become plain
  `List` fields.  Fields of the TypedDict that none of the modelled
  functions touch (e.g. `project_plan`, `messages`, `current_stage`) are
  omitted; the modelled functions neither read nor write them.
* Python truthiness of an optional string (`if not state.get(k)`) is
  `truthyS`; of an optional list, `truthyL`.
* Calls to external LLM crews (`Crew(...).kickoff()`) are modelled by a
  `KickOutcome` argument: a successful result with raw text, a falsy
  result, or a raised exception.  `json.loads` is modelled by an oracle
  `String → Option ReviewData` (`none` = `JSONDecodeError`).
* `datetime.now()` is modelled by a `now : String` argument; the
  auto-save file write in `save_version_to_history` is I/O and not
  modelled (it does not change the state).
-/

/-- A literature / data-analysis point: a dict `{sentence, source}`. -/
structure Point where
  sentence : String
  source : String
deriving Repr, DecidableEq

/-- One chapter of the parsed outline JSON. -/
structure Chapter where
  chapter_title : Option String
  supporting_points_indices : List Int
deriving Repr, DecidableEq

/-- The parsed outline JSON (`outline_data`). -/
structure OutlineData where
  title : Option String
  chapters : List Chapter
deriving Repr, DecidableEq

/-- A record appended to `version_history` by `save_version_to_history`
(lines 46-55 of `hybrid_workflow.py`). -/
structure VersionRecord where
  version : Nat
  timestamp : String
  type : String
  description : String
  content : String
  revision_count : Nat
  review_score : Option Int
  word_count : Nat
deriving Repr, DecidableEq

/-- A record appended to `revision_history`.  The reviewer record of
`quality_check_node` carries four extra analytics keys that the
forced-accept record does not; those are `Option` fields defaulting to
`none`. -/
structure RevisionHistoryEntry where
  revision_number : Nat
  decision : String
  feedback : String
  quality_score : Int
  revision_priority : String
  specific_issues : List String
  timestamp : Option String
  decision_maker : String
  word_count : Option Nat := none
  has_data_analysis : Option Bool := none
  literature_points_count : Option Nat := none
  data_points_count : Option Nat := none
deriving Repr, DecidableEq

/-- The fields of the `ResearchState` TypedDict touched by the modelled
functions. -/
structure ResearchState where
  research_goal : String
  data_file_path : Option String
  literature_points : Option (List Point)
  data_analysis_results : Option String
  data_analysis_points : Option (List Point)
  combined_points : Option (List Point)
  outline_data : Option OutlineData
  draft_content : Option String
  version_history : List VersionRecord
  current_version : Option Nat
  review_decision : Option String
  review_feedback : Option String
  review_score : Option Int
  review_priority : Option String
  specific_issues : List String
  revision_count : Option Nat
  max_revisions : Option Nat
  revision_history : List RevisionHistoryEntry
  quality_gates_passed : List String
  is_in_revision_loop : Option Bool
  last_revision_timestamp : Option String
  force_accept_reason : Option String
  workflow_completion_status : Option String
  final_decision_maker : Option String
  tasks_completed : List String
  errors : List String
deriving Repr, DecidableEq

/-- Python truthiness of an optional string (`None` and `""` are falsy). -/
def truthyS : Option String → Bool
  | none => false
  | some s => s ≠ ""

/-- Python truthiness of an optional list (`None` and `[]` are falsy). -/
def truthyL {α : Type} : Option (List α) → Bool
  | none => false
  | some l => !l.isEmpty

/-- `state.get('revision_count', 0)`. -/
def revCount (s : ResearchState) : Nat := s.revision_count.getD 0

/-- `state.get('max_revisions', 3)`. -/
def maxRev (s : ResearchState) : Nat := s.max_revisions.getD 3

/-- Splits a character list on runs of whitespace, discarding empty
pieces — the semantics of Python `str.split()` with no argument.
(`acc` holds the characters of the current word, reversed.) -/
def wordsAux : List Char → List Char → List String
  | [], acc => if acc.isEmpty then [] else [String.mk acc.reverse]
  | c :: cs, acc =>
      if c.isWhitespace then
        if acc.isEmpty then wordsAux cs []
        else String.mk acc.reverse :: wordsAux cs []
      else wordsAux cs (c :: acc)

/-- `len(content.split())`. -/
def wordCount (content : String) : Nat :=
  (wordsAux content.toList []).length

/-- Python `c in text` for a single character `c`. -/
def strContainsChar (t : String) (c : Char) : Bool :=
  t.toList.contains c

/-- Whether the character list `p` is an initial segment of `l`. -/
def startsWithChars : List Char → List Char → Bool
  | [], _ => true
  | _ :: _, [] => false
  | a :: as, b :: bs => a == b && startsWithChars as bs

/-- Whether `n` occurs as a contiguous sublist of the second list. -/
def containsSub (n : List Char) : List Char → Bool
  | [] => n.isEmpty
  | c :: rest => startsWithChars n (c :: rest) || containsSub n rest

/-- Python `str.lower()`, character-wise (ASCII letters; other
characters, including the CJK keywords used here, are unchanged —
matching Python for the alphabets that occur). -/
def pyLower (t : String) : String :=
  String.mk (t.toList.map Char.toLower)

/-- `save_version_to_history(state, content, version_type, description)`
(lines 28-78).  Takes the version number `state.get('current_version', 0) + 1`,
stores it back, and appends one `VersionRecord`.  The optional auto-save to
a text file is I/O and not modelled. -/
def save_version_to_history (s : ResearchState) (content : String)
    (version_type : String) (description : String) (now : String) :
    ResearchState :=
  let current_version := s.current_version.getD 0 + 1
  let record : VersionRecord :=
    { version := current_version
      timestamp := now
      type := version_type
      description := description
      content := content
      revision_count := revCount s
      review_score := s.review_score
      word_count := if content ≠ "" then wordCount content else 0 }
  { s with current_version := some current_version
           version_history := s.version_history ++ [record] }

/-- Outcome of one `Crew(...).kickoff()` call: a result object whose
`.raw` is the given text, a falsy result (`None`), or a raised
exception carrying the message text used for `str(e)`. -/
inductive KickOutcome where
  | ok (raw : String)
  | noResult
  | exn (msg : String)
deriving Repr

/-- Whether `KickOutcome` is the exception case. -/
def KickOutcome.isExn : KickOutcome → Bool
  | .exn _ => true
  | _ => false

/-- The keys the reviewer JSON may carry (a parsed Python dict:
`none` = key absent). -/
structure ReviewData where
  decision : Option String
  feedback : Option String
  quality_score : Option Int
  revision_priority : Option String
  specific_issues : Option (List String)
deriving Repr, DecidableEq

/-- The structured verdict `quality_check_node` derives from the
reviewer response. -/
structure Verdict where
  decision : String
  feedback : String
  quality_score : Int
  revision_priority : String
  specific_issues : List String
deriving Repr, DecidableEq

def lbrace : Char := Char.ofNat 123
def rbrace : Char := Char.ofNat 125

/-- `review_text[json_start:json_end]` where
`json_start = review_text.find(lbrace)` and
`json_end = review_text.rfind(rbrace) + 1` (lines 811-813).  Only used
when both braces occur in the text. -/
def extractJson (t : String) : String :=
  let cs := t.toList
  let i := cs.findIdx (fun c => c == lbrace)
  let j := cs.length - 1 - (cs.reverse.findIdx (fun c => c == rbrace))
  String.mk ((cs.drop i).take (j + 1 - i))

/-- The degraded verdict built when the review crew returns a falsy
result or empty raw text (lines 838-844). -/
def failVerdict : Verdict :=
  { decision := "REVISE"
    feedback := "品質審核過程失敗，建議手動檢查初稿內容。"
    quality_score := 3
    revision_priority := "HIGH"
    specific_issues := ["審核過程失敗"] }

/-- Parsing of a truthy raw reviewer response (lines 805-836):
if the text holds a `\x7b`...`\x7d` region, run `json.loads` on the
extracted slice (`jsonLoads` oracle; `none` = `JSONDecodeError`), reading
each key with the source's defaults; otherwise treat the whole text as
free-form feedback. -/
def parseVerdict (raw : String) (jsonLoads : String → Option ReviewData) :
    Verdict :=
  if strContainsChar raw lbrace ∧ strContainsChar raw rbrace then
    match jsonLoads (extractJson raw) with
    | some d =>
        { decision := d.decision.getD "REVISE"
          feedback := d.feedback.getD "審核意見解析失敗"
          quality_score := d.quality_score.getD 5
          revision_priority := d.revision_priority.getD "MEDIUM"
          specific_issues := d.specific_issues.getD [] }
    | none =>
        { decision := "REVISE"
          feedback := "JSON解析失敗，原始審核結果：" ++ raw
          quality_score := 5
          revision_priority := "MEDIUM"
          specific_issues := ["JSON解析問題"] }
  else
    { decision := "REVISE"
      feedback := raw
      quality_score := 5
      revision_priority := "MEDIUM"
      specific_issues := [] }

/-- The verdict derived from a non-exception review-crew outcome:
`if review_result and review_result.raw:` (line 804) guards the parse,
else the degraded `failVerdict` is used. -/
def reviewVerdict (r : KickOutcome) (jsonLoads : String → Option ReviewData) :
    Verdict :=
  match r with
  | .ok raw => if raw ≠ "" then parseVerdict raw jsonLoads else failVerdict
  | _ => failVerdict

/-- The empty-draft branch of `quality_check_node` (lines 681-686). -/
def emptyDraftUpdate (s : ResearchState) : ResearchState :=
  { s with errors := s.errors ++ ["沒有初稿可供審核"]
           review_decision := some "REJECT"
           review_feedback := some "缺少初稿內容，無法進行品質審核。"
           workflow_completion_status := some "FAILED_NO_CONTENT" }

/-- The max-revisions forced-accept branch of `quality_check_node`
(lines 701-725): sets the final verdict fields and appends one synthetic
`FORCE_ACCEPT` history record with the fallback score 7. -/
def forceAcceptUpdate (s : ResearchState) : ResearchState :=
  let max_revisions := maxRev s
  let feedback :=
    "最終裁決：經過 " ++ toString max_revisions ++
    " 輪修訂後，系統決定接受當前版本。\n\n雖然仍有改進空間，但已展現了AI團隊的協作成果。此決策基於防止無限迴圈的保護機制。"
  let final_record : RevisionHistoryEntry :=
    { revision_number := revCount s + 1
      decision := "FORCE_ACCEPT"
      feedback := feedback
      quality_score := 7
      revision_priority := "FINAL"
      specific_issues := ["已達最大修訂次數"]
      timestamp := s.last_revision_timestamp
      decision_maker := "SYSTEM" }
  { s with review_decision := some "ACCEPT"
           force_accept_reason :=
             some ("達到最大修訂次數 (" ++ toString max_revisions ++
                   ")，系統強制接受以確保流程完成")
           final_decision_maker := some "SYSTEM"
           workflow_completion_status := some "COMPLETED_FORCE_ACCEPT"
           review_feedback := some feedback
           revision_history := s.revision_history ++ [final_record] }

/-- The reviewer-branch update of `quality_check_node` (lines 846-892):
appends the reviewer history record and stores the verdict fields. -/
def reviewUpdate (v : Verdict) (s : ResearchState) : ResearchState :=
  let draft := s.draft_content.getD ""
  let record : RevisionHistoryEntry :=
    { revision_number := revCount s + 1
      decision := v.decision
      feedback := v.feedback
      quality_score := v.quality_score
      revision_priority := v.revision_priority
      specific_issues := v.specific_issues
      timestamp := s.last_revision_timestamp
      decision_maker := "AI_REVIEWER"
      word_count := some (wordCount draft)
      has_data_analysis := some (truthyS s.data_analysis_results)
      literature_points_count := some (s.literature_points.getD []).length
      data_points_count := some (s.data_analysis_points.getD []).length }
  { s with revision_history := s.revision_history ++ [record]
           review_decision := some v.decision
           review_feedback := some v.feedback
           review_score := some v.quality_score
           review_priority := some v.revision_priority
           specific_issues := v.specific_issues
           tasks_completed := s.tasks_completed ++ ["quality_check"] }

/-- The exception handler of `quality_check_node` (lines 894-898). -/
def qcExnUpdate (msg : String) (s : ResearchState) : ResearchState :=
  { s with errors := s.errors ++ ["品質審核錯誤：" ++ msg]
           review_decision := some "REVISE"
           review_feedback :=
             some ("品質審核過程遇到技術問題：" ++ msg ++
                   "。建議檢查初稿內容並重新審核。") }

/-- Lines 677-679 of `quality_check_node`: the loop flags set before
anything else. -/
def qcPre (now : String) (s : ResearchState) : ResearchState :=
  { s with is_in_revision_loop := some true
           last_revision_timestamp := some now }

/-- Lines 689-695 of `quality_check_node`: the pre-review snapshot of
the draft as a `review_<n>` version. -/
def qcSnapshot (now : String) (s : ResearchState) : ResearchState :=
  save_version_to_history s (s.draft_content.getD "")
    ("review_" ++ toString (revCount s + 1))
    ("第 " ++ toString (revCount s + 1) ++ " 輪審核前的版本") now

/-- `quality_check_node` (lines 664-900).  Sets the loop flags, fails
fast on an empty draft, snapshots the draft as a `review_<n>` version,
force-accepts at the revision limit, and otherwise derives a verdict
from the review crew's outcome (`review` + `jsonLoads`), appending one
history record. -/
def quality_check_node (now : String) (review : KickOutcome)
    (jsonLoads : String → Option ReviewData) (s0 : ResearchState) :
    ResearchState :=
  let s := qcPre now s0
  if truthyS s.draft_content = false then emptyDraftUpdate s
  else
    let s1 := qcSnapshot now s
    if revCount s1 ≥ maxRev s1 then forceAcceptUpdate s1
    else
      match review with
      | .exn msg => qcExnUpdate msg s1
      | r => reviewUpdate (reviewVerdict r jsonLoads) s1

/-- Branch 1 of `route_after_quality_check` (lines 1134-1138). -/
def routeForceUpdate (s : ResearchState) : ResearchState :=
  { s with is_in_revision_loop := some false
           workflow_completion_status := some "COMPLETED_FORCE_ACCEPT" }

/-- Branch 2 of `route_after_quality_check` (lines 1141-1145). -/
def routeAcceptUpdate (s : ResearchState) : ResearchState :=
  { s with is_in_revision_loop := some false
           workflow_completion_status := some "COMPLETED_ACCEPT"
           quality_gates_passed := s.quality_gates_passed ++
             ["quality_check_passed_score_" ++
              toString (s.review_score.getD 5)] }

/-- Branch 3 of `route_after_quality_check` (lines 1149-1153). -/
def routeReviseUpdate (s : ResearchState) : ResearchState :=
  { s with is_in_revision_loop := some true }

/-- Branch 4 of `route_after_quality_check` (lines 1155-1167). -/
def routeProtectionUpdate (s : ResearchState) : ResearchState :=
  { s with force_accept_reason := some
             (if s.review_decision.getD "REVISE" = "REJECT" then
                "品質審核拒絕，但啟動保護機制避免完全失敗"
              else "達到最大修訂次數 " ++ toString (maxRev s) ++
                "，啟動保護機制")
           is_in_revision_loop := some false
           final_decision_maker := some "PROTECTION_SYSTEM"
           workflow_completion_status := some "COMPLETED_PROTECTION" }

/-- `route_after_quality_check` (lines 1108-1167).  Returns the route
label together with the state as mutated by the routing function. -/
def route_after_quality_check (s : ResearchState) :
    String × ResearchState :=
  let decision := s.review_decision.getD "REVISE"
  let is_force_accept := s.force_accept_reason ≠ none
  if is_force_accept ∨ decision = "FORCE_ACCEPT" then
    ("editing", routeForceUpdate s)
  else if decision = "ACCEPT" then
    ("editing", routeAcceptUpdate s)
  else if decision = "REVISE" ∧ revCount s < maxRev s then
    ("revision", routeReviseUpdate s)
  else
    ("editing", routeProtectionUpdate s)

/-- `route_after_revision` (lines 1363-1381): drops the first
`quality_check` completion marker and always routes back to
`quality_check`. -/
def route_after_revision (s : ResearchState) : String × ResearchState :=
  ("quality_check",
    { s with tasks_completed := s.tasks_completed.erase "quality_check" })

/-- Python substring test `needle in haystack`. -/
def substrIn (needle haystack : String) : Bool :=
  containsSub needle.toList haystack.toList

/-- The keyword sniff of `revision_node` (lines 948-951):
`any(keyword in feedback.lower() for keyword in [...])`. -/
def needsDataReanalysis (feedback : String) : Bool :=
  ["數據分析", "統計", "計算", "數據問題", "分析結果", "數據缺失", "數據解釋"].any
    (fun k => substrIn k (pyLower feedback))

/-- Python list indexing `ps[i]` with wrap-around for negative indices and
an `IndexError` outside the valid range. -/
def pyIndex {α : Type} (ps : List α) (i : Int) : Except String α :=
  let j := if i < 0 then (ps.length : Int) + i else i
  if h : 0 ≤ j ∧ j.toNat < ps.length then .ok (ps.get ⟨j.toNat, h.2⟩)
  else .error "list index out of range"

/-- `[all_points[i] for i in indices if i < len(all_points)]` — the guard
filters only the upper bound, so a large negative index still raises. -/
def chapterPoints (all_points : List Point) (indices : List Int) :
    Except String (List Point) :=
  (indices.filter (fun i => i < (all_points.length : Int))).mapM
    (pyIndex all_points)

/-- The exception handler of `revision_node` (lines 1101-1103). -/
def revExnUpdate (rc : Nat) (msg : String) (s : ResearchState) :
    ResearchState :=
  { s with errors := s.errors ++
      ["修訂錯誤 (第" ++ toString rc ++ "次)：" ++ msg] }

/-- The data-reanalysis branch of `revision_node` (lines 953-1000): when
the feedback mentions a data keyword and a data file is set, re-run the
analysis crew; a truthy result replaces the analysis points and rebuilds
`combined_points`; an exception aborts to the node's handler. -/
def revisionAnalysisStep (rc : Nat) (analysis : KickOutcome)
    (s : ResearchState) : Except String ResearchState :=
  if needsDataReanalysis (s.review_feedback.getD "") ∧
      truthyS s.data_file_path then
    match analysis with
    | .exn m => .error m
    | .ok raw =>
        if raw ≠ "" then
          let p : Point :=
            { sentence := raw
              source := "修訂後數據分析 (第" ++ toString rc ++ "次)：" ++
                s.data_file_path.getD "" }
          .ok { s with
            data_analysis_results := some raw
            data_analysis_points := some [p]
            combined_points := some
              ((if truthyL s.literature_points then s.literature_points.getD []
                else []) ++ [p]) }
        else .ok s
    | .noResult => .ok s
  else .ok s

/-- The per-chapter rewriting loop of `revision_node` (lines 1011-1055):
for each chapter, select its points (may raise `IndexError`), call the
writing crew (indexed oracle `write`), and append
`## <title>\n\n<content>\n\n`, substituting the failure marker for a
falsy crew result.  An exception aborts the whole loop. -/
def buildChapters (write : Nat → KickOutcome) (all_points : List Point)
    (rc : Nat) : List Chapter → Nat → Except String String
  | [], _ => .ok ""
  | ch :: rest, i =>
    match chapterPoints all_points ch.supporting_points_indices with
    | .error e => .error e
    | .ok _pts =>
      match write i with
      | .exn m => .error m
      | w =>
        let content :=
          match w with
          | .ok raw =>
              if raw ≠ "" then raw
              else "[第" ++ toString rc ++ "次修訂：章節內容生成失敗]"
          | _ => "[第" ++ toString rc ++ "次修訂：章節內容生成失敗]"
        match buildChapters write all_points rc rest (i + 1) with
        | .error e => .error e
        | .ok tail =>
            .ok ("## " ++ ch.chapter_title.getD "未命名章節" ++ "\n\n" ++
                 content ++ "\n\n" ++ tail)

/-- The revision note appended to the rewritten draft (lines 1059-1080). -/
def revisionNote (rc : Nat) (review_score : Int) (review_priority : String)
    (specific_issues : List String) (feedback : String) : String :=
  "\n\n---\n## 📝 修訂記錄 (第 " ++ toString rc ++
  " 次修訂)\n\n### 本次修訂重點\n- **評分提升目標**：從 " ++
  toString review_score ++
  "/10 提升至 8+ 分\n- **修訂優先級**：" ++ review_priority ++
  "\n- **重點改進問題**：" ++
  (if !specific_issues.isEmpty then
     String.intercalate ", " (specific_issues.take 3)
   else "整體品質提升") ++
  "\n\n### 審稿人反饋摘要\n" ++ feedback.take 200 ++
  "...\n\n### 具體改進措施\n本版本已針對上述反饋進行了以下改進：\n" ++
  "1. 加強論證邏輯性和連貫性\n2. 補充數據分析的深度和準確性\n" ++
  "3. 提升學術語言的嚴謹性\n4. 確保所有論點都有充分的證據支撐\n\n---\n"

/-- The rewriting branch of `revision_node` (lines 1003-1093).  The
Python guard `if state.get('outline_data') and state.get('combined_points')`
tests dict/list truthiness; the parsed outline dict is modelled as truthy
whenever present.  On success the draft is replaced wholesale and a
`revised_<n>` version is saved. -/
def revisionWritingStep (now : String) (write : Nat → KickOutcome)
    (rc : Nat) (review_score : Int) (review_priority : String)
    (specific_issues : List String) (feedback : String)
    (s : ResearchState) : Except String ResearchState :=
  match s.outline_data with
  | some od =>
      if truthyL s.combined_points then
        match buildChapters write (s.combined_points.getD []) rc
            od.chapters 0 with
        | .error e => .error e
        | .ok body =>
            let revised_draft := "# " ++ od.title.getD "研究報告" ++
              "\n\n" ++ body
            let s1 := { s with draft_content := some (revised_draft ++
              revisionNote rc review_score review_priority specific_issues
                feedback) }
            .ok (save_version_to_history s1 (s1.draft_content.getD "")
              ("revised_" ++ toString rc)
              ("第 " ++ toString rc ++ " 次修訂完成版本 (目標評分: 8+/10)")
              now)
      else .ok s
  | none => .ok s

/-- The `try` body of `revision_node` (lines 944-1103): analysis step,
then rewriting step, then the completion bookkeeping; an exception in
either step falls to the handler with the state as mutated so far. -/
def revisionExecute (now : String) (analysis : KickOutcome)
    (write : Nat → KickOutcome) (s : ResearchState) : ResearchState :=
  let rc := revCount s
  let feedback := s.review_feedback.getD ""
  let review_score := s.review_score.getD 5
  let review_priority := s.review_priority.getD "MEDIUM"
  let specific_issues := s.specific_issues
  match revisionAnalysisStep rc analysis s with
  | .error m => revExnUpdate rc m s
  | .ok s1 =>
    match revisionWritingStep now write rc review_score review_priority
        specific_issues feedback s1 with
    | .error m => revExnUpdate rc m s1
    | .ok s2 =>
        { s2 with
          tasks_completed := s2.tasks_completed ++
            ["revision_" ++ toString rc]
          last_revision_timestamp := some now }

/-- The state just before `revision_node` delegates to the revision
executor: `revision_count` incremented by exactly one (lines 921-922) and
the `pre_revision_<n>` snapshot saved (lines 937-942). -/
def preRevisionState (now : String) (s : ResearchState) : ResearchState :=
  let revision_count := revCount s + 1
  let s1 := { s with revision_count := some revision_count }
  save_version_to_history s1 (s1.draft_content.getD "")
    ("pre_revision_" ++ toString revision_count)
    ("第 " ++ toString revision_count ++ " 次修訂前的版本 (評分: " ++
     toString (s1.review_score.getD 5) ++ "/10)") now

/-- `revision_node` (lines 903-1105): fails fast with
`FAILED_NO_FEEDBACK` when `review_feedback` is falsy; otherwise
increments the revision counter, snapshots, and runs the executor body. -/
def revision_node (now : String) (analysis : KickOutcome)
    (write : Nat → KickOutcome) (s : ResearchState) : ResearchState :=
  if truthyS s.review_feedback = false then
    { s with errors := s.errors ++ ["沒有審核反饋可供修訂"]
             workflow_completion_status := some "FAILED_NO_FEEDBACK" }
  else revisionExecute now analysis write (preRevisionState now s)

/-- The per-cycle external inputs of one review cycle: the wall clock,
the review crew outcome with its JSON parser, and the revision executor's
crew outcomes. -/
structure CycleOracle where
  now : String
  review : KickOutcome
  jsonLoads : String → Option ReviewData
  analysis : KickOutcome
  write : Nat → KickOutcome

/-- The review/revision loop as wired in `create_hybrid_workflow`
(lines 1352-1390): run `quality_check_node`, route; on `"revision"` run
`revision_node` and `route_after_revision` (always back to
`quality_check`) and recurse; on any other label the loop exits to
editing.  Returns the labels chosen by `route_after_quality_check`, one
per review cycle, and the final state.  `fuel` bounds the number of
cycles examined. -/
def runFrom (orcs : Nat → CycleOracle) :
    Nat → Nat → ResearchState → List String × ResearchState
  | 0, _, s => ([], s)
  | fuel + 1, i, s =>
    let o := orcs i
    let s1 := quality_check_node o.now o.review o.jsonLoads s
    let r := route_after_quality_check s1
    if r.1 = "revision" then
      let s3 := revision_node o.now o.analysis o.write r.2
      let s4 := (route_after_revision s3).2
      let rest := runFrom orcs fuel (i + 1) s4
      (r.1 :: rest.1, rest.2)
    else ([r.1], r.2)

/-- The initial `ResearchState` as constructed by
`test_feedback_system.py` (lines 36-62): explicit keys as given there;
keys absent from the constructor are `none`/`[]`. -/
def initialState : ResearchState :=
  { research_goal := "基於sales_data.csv提供的五年期詳細財報，深度剖析NVIDIA商業模式的演變。請識別其核心增長引擎的轉變過程，對比數據中心與遊戲業務的消長趨勢，並結合市場估值變化，生成一份關於NVIDIA如何轉型為全球AI領導者的綜合戰略分析報告。"
    data_file_path := some "sales_data.csv"
    literature_points := none
    data_analysis_results := none
    data_analysis_points := none
    combined_points := none
    outline_data := none
    draft_content := none
    version_history := []
    current_version := none
    review_decision := none
    review_feedback := none
    review_score := none
    review_priority := none
    specific_issues := []
    revision_count := some 0
    max_revisions := some 2
    revision_history := []
    quality_gates_passed := []
    is_in_revision_loop := none
    last_revision_timestamp := none
    force_accept_reason := none
    workflow_completion_status := none
    final_decision_maker := none
    tasks_completed := []
    errors := [] }

/-- The reviewer oracle produces a verdict whose feedback text is
nonempty (the hypothesis of the amended termination claim). -/
def qcFeedbackOk (rv : KickOutcome) (jl : String → Option ReviewData) :
    Prop :=
  (reviewVerdict rv jl).feedback ≠ ""

/-- The version-store invariant that holds throughout a run: the
versions in `version_history` are `1, 2, ..., k` in order and
`current_version` records the last one (`0`/absent when empty). -/
def versionInv (s : ResearchState) : Prop :=
  s.version_history.map VersionRecord.version =
    (List.range s.version_history.length).map (fun k => k + 1) ∧
  s.current_version.getD 0 = s.version_history.length

/-- A reviewer that always answers REVISE with an empty feedback string
(a legal `ReviewVerdict`: `feedback` is just a string). -/
def c1CexOracle : CycleOracle :=
  { now := "t0"
    review := .ok "\x7b\x7d"
    jsonLoads := fun _ => some
      { decision := some "REVISE", feedback := some "",
        quality_score := none, revision_priority := none,
        specific_issues := none }
    analysis := .noResult
    write := fun _ => .noResult }

/-- A run configured with `max_revisions = 1` and a non-empty draft. -/
def c1CexState : ResearchState :=
  { initialState with draft_content := some "draft text"
                      max_revisions := some 1 }

/-- A reviewer that accepts with non-empty feedback. -/
def c1WitOracle : CycleOracle :=
  { now := "t0"
    review := .ok "\x7b\x7d"
    jsonLoads := fun _ => some
      { decision := some "ACCEPT", feedback := some "well supported",
        quality_score := some 9, revision_priority := some "LOW",
        specific_issues := some [] }
    analysis := .noResult
    write := fun _ => .noResult }

/-- The initial state with a non-empty draft (`max_revisions = 2`). -/
def c1WitState : ResearchState :=
  { initialState with draft_content := some "d" }

/-- A state submitted for review after the revision budget is used up. -/
def c2WitState : ResearchState :=
  { initialState with draft_content := some "d", revision_count := some 2 }

/-- A JSON parse producing a REJECT verdict. -/
def c3WitJson : String → Option ReviewData := fun _ => some
  { decision := some "REJECT", feedback := some "insufficient evidence",
    quality_score := some 2, revision_priority := some "HIGH",
    specific_issues := some [] }

/-- A state carrying non-empty review feedback, ready for revision. -/
def c5WitState : ResearchState :=
  { initialState with review_feedback := some "tighten the argument" }

/-! ## Field-preservation lemmas -/

@[simp] theorem save_revision_count (s : ResearchState) (c t d n : String) :
    (save_version_to_history s c t d n).revision_count = s.revision_count := rfl

@[simp] theorem save_max_revisions (s : ResearchState) (c t d n : String) :
    (save_version_to_history s c t d n).max_revisions = s.max_revisions := rfl

@[simp] theorem save_review_feedback (s : ResearchState) (c t d n : String) :
    (save_version_to_history s c t d n).review_feedback = s.review_feedback := rfl

@[simp] theorem save_review_decision (s : ResearchState) (c t d n : String) :
    (save_version_to_history s c t d n).review_decision = s.review_decision := rfl

@[simp] theorem save_force (s : ResearchState) (c t d n : String) :
    (save_version_to_history s c t d n).force_accept_reason =
      s.force_accept_reason := rfl

@[simp] theorem save_revision_history (s : ResearchState) (c t d n : String) :
    (save_version_to_history s c t d n).revision_history =
      s.revision_history := rfl

@[simp] theorem qcPre_draft (now : String) (s : ResearchState) :
    (qcPre now s).draft_content = s.draft_content := rfl

@[simp] theorem qcPre_rc (now : String) (s : ResearchState) :
    revCount (qcPre now s) = revCount s := rfl

@[simp] theorem qcPre_mr (now : String) (s : ResearchState) :
    maxRev (qcPre now s) = maxRev s := rfl

@[simp] theorem qcSnapshot_rc (now : String) (s : ResearchState) :
    revCount (qcSnapshot now s) = revCount s := rfl

@[simp] theorem qcSnapshot_mr (now : String) (s : ResearchState) :
    maxRev (qcSnapshot now s) = maxRev s := rfl

/-! ## Branch characterizations of `quality_check_node` -/

theorem qc_empty (now : String) (rv : KickOutcome)
    (jl : String → Option ReviewData) (s : ResearchState)
    (h : truthyS s.draft_content = false) :
    quality_check_node now rv jl s = emptyDraftUpdate (qcPre now s) := by
  simp [quality_check_node, h]

theorem qc_force (now : String) (rv : KickOutcome)
    (jl : String → Option ReviewData) (s : ResearchState)
    (h : truthyS s.draft_content = true) (h2 : maxRev s ≤ revCount s) :
    quality_check_node now rv jl s =
      forceAcceptUpdate (qcSnapshot now (qcPre now s)) := by
  simp [quality_check_node, h, h2]

theorem qc_exn (now m : String) (jl : String → Option ReviewData)
    (s : ResearchState) (h : truthyS s.draft_content = true)
    (h2 : revCount s < maxRev s) :
    quality_check_node now (.exn m) jl s =
      qcExnUpdate m (qcSnapshot now (qcPre now s)) := by
  simp [quality_check_node, h, Nat.not_le.mpr h2]

theorem qc_review (now : String) (rv : KickOutcome)
    (jl : String → Option ReviewData) (s : ResearchState)
    (h : truthyS s.draft_content = true) (h2 : revCount s < maxRev s)
    (h3 : rv.isExn = false) :
    quality_check_node now rv jl s =
      reviewUpdate (reviewVerdict rv jl) (qcSnapshot now (qcPre now s)) := by
  cases rv with
  | exn m => simp [KickOutcome.isExn] at h3
  | ok raw => simp [quality_check_node, h, Nat.not_le.mpr h2]
  | noResult => simp [quality_check_node, h, Nat.not_le.mpr h2]

/-! ## Branch characterizations of `route_after_quality_check` -/

theorem route_fst (s : ResearchState) :
    (route_after_quality_check s).1 = "revision" ∨
    (route_after_quality_check s).1 = "editing" := by
  simp only [route_after_quality_check]
  split
  · exact Or.inr rfl
  · split
    · exact Or.inr rfl
    · split
      · exact Or.inl rfl
      · exact Or.inr rfl

theorem route_revise (s : ResearchState) (h1 : s.force_accept_reason = none)
    (h2 : s.review_decision.getD "REVISE" = "REVISE")
    (h3 : revCount s < maxRev s) :
    route_after_quality_check s = ("revision", routeReviseUpdate s) := by
  simp [route_after_quality_check, h1, h2, h3]

theorem route_force (s : ResearchState) (h : s.force_accept_reason ≠ none) :
    route_after_quality_check s = ("editing", routeForceUpdate s) := by
  simp [route_after_quality_check, h]

theorem route_protection (s : ResearchState)
    (hf : s.force_accept_reason = none)
    (hd : s.review_decision.getD "REVISE" ≠ "FORCE_ACCEPT")
    (ha : s.review_decision.getD "REVISE" ≠ "ACCEPT")
    (hrv : ¬(s.review_decision.getD "REVISE" = "REVISE" ∧
             revCount s < maxRev s)) :
    route_after_quality_check s = ("editing", routeProtectionUpdate s) := by
  simp [route_after_quality_check, hf, hd, ha, hrv]

theorem route_rev_inv (s : ResearchState)
    (h : (route_after_quality_check s).1 = "revision") :
    s.force_accept_reason = none ∧
    s.review_decision.getD "REVISE" = "REVISE" ∧
    revCount s < maxRev s ∧
    (route_after_quality_check s).2 = routeReviseUpdate s := by
  by_cases hf : s.force_accept_reason = none
  · by_cases hd : s.review_decision.getD "REVISE" = "FORCE_ACCEPT"
    · simp [route_after_quality_check, hd] at h
    · by_cases ha : s.review_decision.getD "REVISE" = "ACCEPT"
      · simp [route_after_quality_check, hf, hd, ha] at h
      · by_cases hr : s.review_decision.getD "REVISE" = "REVISE" ∧
            revCount s < maxRev s
        · exact ⟨hf, hr.1, hr.2,
            by simp [route_after_quality_check, hf, hd, ha, hr]⟩
        · simp [route_after_quality_check, hf, hd, ha, hr] at h
  · simp [route_after_quality_check, hf] at h

theorem route_rc (s : ResearchState) :
    (route_after_quality_check s).2.revision_count = s.revision_count := by
  simp only [route_after_quality_check]
  split
  · rfl
  · split
    · rfl
    · split
      · rfl
      · rfl

/-! ## Preservation lemmas for `revision_node` -/

theorem analysisStep_ok {rc : Nat} {a : KickOutcome} {s s' : ResearchState}
    (h : revisionAnalysisStep rc a s = .ok s') :
    s'.revision_count = s.revision_count ∧
    s'.max_revisions = s.max_revisions := by
  unfold revisionAnalysisStep at h
  repeat' split at h
  all_goals cases h
  all_goals exact ⟨rfl, rfl⟩

theorem writingStep_ok {now : String} {write : Nat → KickOutcome} {rc : Nat}
    {sc : Int} {pr : String} {si : List String} {fb : String}
    {s s' : ResearchState}
    (h : revisionWritingStep now write rc sc pr si fb s = .ok s') :
    s'.revision_count = s.revision_count ∧
    s'.max_revisions = s.max_revisions := by
  unfold revisionWritingStep at h
  repeat' split at h
  all_goals cases h
  all_goals exact ⟨rfl, rfl⟩

theorem revisionExecute_rc (now : String) (a : KickOutcome)
    (w : Nat → KickOutcome) (s : ResearchState) :
    (revisionExecute now a w s).revision_count = s.revision_count ∧
    (revisionExecute now a w s).max_revisions = s.max_revisions := by
  simp only [revisionExecute]
  split
  · exact ⟨rfl, rfl⟩
  next s1 heq =>
    have h1 := analysisStep_ok heq
    split
    · exact ⟨h1.1, h1.2⟩
    next s2 heq2 =>
      have h2 := writingStep_ok heq2
      exact ⟨h2.1.trans h1.1, h2.2.trans h1.2⟩

@[simp] theorem preRevision_rc (now : String) (s : ResearchState) :
    (preRevisionState now s).revision_count = some (revCount s + 1) := rfl

@[simp] theorem preRevision_mr (now : String) (s : ResearchState) :
    (preRevisionState now s).max_revisions = s.max_revisions := rfl

theorem revision_node_rc (now : String) (a : KickOutcome)
    (w : Nat → KickOutcome) (s : ResearchState)
    (h : truthyS s.review_feedback = true) :
    (revision_node now a w s).revision_count = some (revCount s + 1) ∧
    (revision_node now a w s).max_revisions = s.max_revisions := by
  unfold revision_node
  rw [if_neg (by simp [h])]
  have h1 := revisionExecute_rc now a w (preRevisionState now s)
  exact ⟨h1.1.trans (preRevision_rc now s), h1.2.trans (preRevision_mr now s)⟩

@[simp] theorem routeReviseUpdate_feedback (s : ResearchState) :
    (routeReviseUpdate s).review_feedback = s.review_feedback := rfl

@[simp] theorem routeReviseUpdate_rc (s : ResearchState) :
    revCount (routeReviseUpdate s) = revCount s := rfl

@[simp] theorem routeReviseUpdate_mr (s : ResearchState) :
    maxRev (routeReviseUpdate s) = maxRev s := rfl

/-! ## Feedback truthiness through a review cycle -/

theorem str_append_ne (a b : String) (h : a.length ≠ 0) : (a ++ b) ≠ "" := by
  intro he
  apply h
  have h2 := congrArg String.length he
  rw [String.length_append] at h2
  simp at h2
  omega

@[simp] theorem qcExnUpdate_feedback (m : String) (s : ResearchState) :
    (qcExnUpdate m s).review_feedback =
      some ("品質審核過程遇到技術問題：" ++ m ++
            "。建議檢查初稿內容並重新審核。") := rfl

@[simp] theorem reviewUpdate_feedback (v : Verdict) (s : ResearchState) :
    (reviewUpdate v s).review_feedback = some v.feedback := rfl

@[simp] theorem reviewUpdate_decision (v : Verdict) (s : ResearchState) :
    (reviewUpdate v s).review_decision = some v.decision := rfl

@[simp] theorem emptyDraftUpdate_decision (s : ResearchState) :
    (emptyDraftUpdate s).review_decision = some "REJECT" := rfl

theorem forceAcceptUpdate_force (s : ResearchState) :
    (forceAcceptUpdate s).force_accept_reason ≠ none := by
  simp [forceAcceptUpdate]

theorem qc_revision_count (now : String) (rv : KickOutcome)
    (jl : String → Option ReviewData) (s : ResearchState) :
    (quality_check_node now rv jl s).revision_count = s.revision_count := by
  cases hdraft : truthyS s.draft_content with
  | false => rw [qc_empty now rv jl s hdraft]; rfl
  | true =>
    by_cases h2 : revCount s < maxRev s
    · cases rv with
      | exn m => rw [qc_exn now m jl s hdraft h2]; rfl
      | ok raw => rw [qc_review now (.ok raw) jl s hdraft h2 rfl]; rfl
      | noResult => rw [qc_review now .noResult jl s hdraft h2 rfl]; rfl
    · rw [qc_force now rv jl s hdraft (Nat.le_of_not_lt h2)]; rfl

theorem qc_max_revisions (now : String) (rv : KickOutcome)
    (jl : String → Option ReviewData) (s : ResearchState) :
    (quality_check_node now rv jl s).max_revisions = s.max_revisions := by
  cases hdraft : truthyS s.draft_content with
  | false => rw [qc_empty now rv jl s hdraft]; rfl
  | true =>
    by_cases h2 : revCount s < maxRev s
    · cases rv with
      | exn m => rw [qc_exn now m jl s hdraft h2]; rfl
      | ok raw => rw [qc_review now (.ok raw) jl s hdraft h2 rfl]; rfl
      | noResult => rw [qc_review now .noResult jl s hdraft h2 rfl]; rfl
    · rw [qc_force now rv jl s hdraft (Nat.le_of_not_lt h2)]; rfl

theorem revCount_qc (now : String) (rv : KickOutcome)
    (jl : String → Option ReviewData) (s : ResearchState) :
    revCount (quality_check_node now rv jl s) = revCount s := by
  unfold revCount; rw [qc_revision_count]

theorem maxRev_qc (now : String) (rv : KickOutcome)
    (jl : String → Option ReviewData) (s : ResearchState) :
    maxRev (quality_check_node now rv jl s) = maxRev s := by
  unfold maxRev; rw [qc_max_revisions]

theorem qc_route_revision_feedback (now : String) (rv : KickOutcome)
    (jl : String → Option ReviewData) (s : ResearchState)
    (H : qcFeedbackOk rv jl)
    (h : (route_after_quality_check
           (quality_check_node now rv jl s)).1 = "revision") :
    truthyS ((route_after_quality_check
      (quality_check_node now rv jl s)).2).review_feedback = true := by
  obtain ⟨hf, hd, _hlt, heq⟩ := route_rev_inv _ h
  rw [heq, routeReviseUpdate_feedback]
  cases hdraft : truthyS s.draft_content with
  | false =>
    rw [qc_empty now rv jl s hdraft, emptyDraftUpdate_decision] at hd
    simp at hd
  | true =>
    by_cases h2 : revCount s < maxRev s
    · cases rv with
      | exn m =>
        rw [qc_exn now m jl s hdraft h2]
        rw [qcExnUpdate_feedback]
        simp only [truthyS, ne_eq, decide_eq_true_eq]
        apply str_append_ne
        rw [String.length_append]
        have h13 : ("品質審核過程遇到技術問題：").length = 13 := rfl
        omega
      | ok raw =>
        rw [qc_review now (.ok raw) jl s hdraft h2 rfl]
        simp only [reviewUpdate_feedback, truthyS, ne_eq, decide_eq_true_eq]
        exact H
      | noResult =>
        rw [qc_review now .noResult jl s hdraft h2 rfl]
        simp only [reviewUpdate_feedback, truthyS, ne_eq, decide_eq_true_eq]
        exact H
    · rw [qc_force now rv jl s hdraft (Nat.le_of_not_lt h2)] at hf
      exact absurd hf (forceAcceptUpdate_force _)

/-! ## The bounded-loop induction -/

theorem revCount_revision_node (now : String) (a : KickOutcome)
    (w : Nat → KickOutcome) (s : ResearchState)
    (h : truthyS s.review_feedback = true) :
    revCount (revision_node now a w s) = revCount s + 1 := by
  unfold revCount
  rw [(revision_node_rc now a w s h).1]
  rfl

theorem maxRev_revision_node (now : String) (a : KickOutcome)
    (w : Nat → KickOutcome) (s : ResearchState)
    (h : truthyS s.review_feedback = true) :
    maxRev (revision_node now a w s) = maxRev s := by
  unfold maxRev
  rw [(revision_node_rc now a w s h).2]

theorem revCount_routeRev (s : ResearchState) :
    revCount (route_after_revision s).2 = revCount s := rfl

theorem maxRev_routeRev (s : ResearchState) :
    maxRev (route_after_revision s).2 = maxRev s := rfl

theorem loop_bounded_aux (orcs : Nat → CycleOracle)
    (H : ∀ i, qcFeedbackOk (orcs i).review (orcs i).jsonLoads) :
    ∀ fuel i s, maxRev s - revCount s < fuel →
      ∃ m, m ≤ maxRev s - revCount s ∧
        (runFrom orcs fuel i s).1 =
          List.replicate m "revision" ++ ["editing"] := by
  intro fuel
  induction fuel with
  | zero => intro i s h; exact absurd h (Nat.not_lt_zero _)
  | succ n ih =>
    intro i s hfuel
    by_cases hr : (route_after_quality_check
        (quality_check_node (orcs i).now (orcs i).review
          (orcs i).jsonLoads s)).1 = "revision"
    · obtain ⟨hf, hd, hlt, heq⟩ := route_rev_inv _ hr
      rw [revCount_qc, maxRev_qc] at hlt
      have hfb := qc_route_revision_feedback (orcs i).now (orcs i).review
        (orcs i).jsonLoads s (H i) hr
      rw [heq] at hfb
      have h4rc : revCount (route_after_revision
          (revision_node (orcs i).now (orcs i).analysis (orcs i).write
            (route_after_quality_check
              (quality_check_node (orcs i).now (orcs i).review
                (orcs i).jsonLoads s)).2)).2
          = revCount s + 1 := by
        rw [revCount_routeRev, heq, revCount_revision_node _ _ _ _ hfb,
          routeReviseUpdate_rc, revCount_qc]
      have h4mr : maxRev (route_after_revision
          (revision_node (orcs i).now (orcs i).analysis (orcs i).write
            (route_after_quality_check
              (quality_check_node (orcs i).now (orcs i).review
                (orcs i).jsonLoads s)).2)).2
          = maxRev s := by
        rw [maxRev_routeRev, heq, maxRev_revision_node _ _ _ _ hfb,
          routeReviseUpdate_mr, maxRev_qc]
      have hfuel4 : maxRev (route_after_revision
          (revision_node (orcs i).now (orcs i).analysis (orcs i).write
            (route_after_quality_check
              (quality_check_node (orcs i).now (orcs i).review
                (orcs i).jsonLoads s)).2)).2
          - revCount (route_after_revision
          (revision_node (orcs i).now (orcs i).analysis (orcs i).write
            (route_after_quality_check
              (quality_check_node (orcs i).now (orcs i).review
                (orcs i).jsonLoads s)).2)).2 < n := by
        rw [h4rc, h4mr]
        omega
      obtain ⟨m, hm, hlist⟩ := ih (i + 1) _ hfuel4
      rw [h4rc, h4mr] at hm
      refine ⟨m + 1, by omega, ?_⟩
      simp only [runFrom]
      rw [if_pos hr, hlist, hr]
      rfl
    · have hedit : (route_after_quality_check
          (quality_check_node (orcs i).now (orcs i).review
            (orcs i).jsonLoads s)).1 = "editing" :=
        (route_fst _).resolve_left hr
      refine ⟨0, Nat.zero_le _, ?_⟩
      simp only [runFrom]
      rw [if_neg hr, hedit]
      rfl

@[simp] theorem routeProtectionUpdate_force (s : ResearchState) :
    (routeProtectionUpdate s).force_accept_reason =
      some (if s.review_decision.getD "REVISE" = "REJECT" then
              "品質審核拒絕，但啟動保護機制避免完全失敗"
            else "達到最大修訂次數 " ++ toString (maxRev s) ++
              "，啟動保護機制") := rfl

/-! ## The claims -/

/-- C1 (counterexample to the claim as stated): with `max_revisions = 1`
and a reviewer that always answers REVISE carrying an empty feedback
string, `route_after_quality_check` returns `"revision"` on five
consecutive review cycles — more than `N = 1` times, never reaching
`"editing"` — because the empty feedback sends `revision_node` through
its `FAILED_NO_FEEDBACK` early return without incrementing
`revision_count`, and `route_after_revision` forces another review. -/
theorem c1_claim_counterexample :
    maxRev c1CexState = 1 ∧ revCount c1CexState = 0 ∧
    (runFrom (fun _ => c1CexOracle) 5 0 c1CexState).1 =
      List.replicate 5 "revision" := by
  refine ⟨rfl, rfl, by decide⟩

/-- C1 (amended): for every `max_revisions = N ≥ 0` and every sequence
of reviewer outcomes whose derived verdicts carry non-empty feedback
text (still covering an always-REVISE reviewer and always-failing
revision executors and reviewer exceptions), the review/revision loop
leaves the reviewing states within at most `N + 1` review cycles:
`route_after_quality_check` returns `"revision"` at most
`maxRev s - revCount s` times and then returns `"editing"`. -/
theorem c1_review_loop_bounded (orcs : Nat → CycleOracle)
    (H : ∀ i, qcFeedbackOk (orcs i).review (orcs i).jsonLoads)
    (fuel i : Nat) (s : ResearchState)
    (hfuel : maxRev s - revCount s < fuel) :
    ∃ m, m ≤ maxRev s - revCount s ∧
      (runFrom orcs fuel i s).1 =
        List.replicate m "revision" ++ ["editing"] :=
  loop_bounded_aux orcs H fuel i s hfuel

/-- C1 witness: the loop bound applied to the concrete accepting run. -/
theorem c1_review_loop_bounded_witness :
    (∀ _i : Nat, qcFeedbackOk c1WitOracle.review c1WitOracle.jsonLoads) ∧
    maxRev c1WitState - revCount c1WitState < 3 ∧
    ∃ m, m ≤ maxRev c1WitState - revCount c1WitState ∧
      (runFrom (fun _ => c1WitOracle) 3 0 c1WitState).1 =
        List.replicate m "revision" ++ ["editing"] := by
  refine ⟨?_, by decide, c1_review_loop_bounded (fun _ => c1WitOracle)
    (fun _ => ?_) 3 0 c1WitState (by decide)⟩
  · intro _
    show (reviewVerdict c1WitOracle.review c1WitOracle.jsonLoads).feedback ≠ ""
    decide
  · show (reviewVerdict c1WitOracle.review c1WitOracle.jsonLoads).feedback ≠ ""
    decide

/-- C2: when a non-empty draft is submitted for review with
`revision_count ≥ max_revisions`, the controller force-accepts
unconditionally: for every reviewer outcome (including REVISE) the
route is `"editing"`, never `"revision"`, and the completion status is
`COMPLETED_FORCE_ACCEPT` — set by `quality_check_node` and preserved by
`route_after_quality_check`. -/
theorem c2_force_accept_precedence (now : String) (rv : KickOutcome)
    (jl : String → Option ReviewData) (s : ResearchState)
    (h1 : truthyS s.draft_content = true) (h2 : maxRev s ≤ revCount s) :
    (route_after_quality_check (quality_check_node now rv jl s)).1 =
      "editing" ∧
    (route_after_quality_check (quality_check_node now rv jl s)).1 ≠
      "revision" ∧
    (quality_check_node now rv jl s).workflow_completion_status =
      some "COMPLETED_FORCE_ACCEPT" ∧
    (route_after_quality_check
      (quality_check_node now rv jl s)).2.workflow_completion_status =
      some "COMPLETED_FORCE_ACCEPT" := by
  rw [qc_force now rv jl s h1 h2]
  rw [route_force _ (forceAcceptUpdate_force _)]
  exact ⟨rfl, by simp, rfl, rfl⟩

/-- C2 witness: forced accept at `revision_count = max_revisions = 2`. -/
theorem c2_force_accept_precedence_witness :
    truthyS c2WitState.draft_content = true ∧
    maxRev c2WitState ≤ revCount c2WitState ∧
    (route_after_quality_check (quality_check_node "t" (.ok "REVISE please")
      (fun _ => none) c2WitState)).1 = "editing" ∧
    (quality_check_node "t" (.ok "REVISE please") (fun _ => none)
      c2WitState).workflow_completion_status =
      some "COMPLETED_FORCE_ACCEPT" := by
  refine ⟨by decide, by decide, ?_, ?_⟩
  · exact (c2_force_accept_precedence "t" (.ok "REVISE please")
      (fun _ => none) c2WitState (by decide) (by decide)).1
  · exact (c2_force_accept_precedence "t" (.ok "REVISE please")
      (fun _ => none) c2WitState (by decide) (by decide)).2.2.1

/-- C3: a REJECT verdict while `revision_count < max_revisions` (with no
prior forced accept) makes the router perform a protective forced
accept: route `"editing"`, completion status `COMPLETED_PROTECTION`,
final decision maker `PROTECTION_SYSTEM`, the REJECT
`force_accept_reason`, and `revision_count` unchanged. -/
theorem c3_reject_protection (now : String) (rv : KickOutcome)
    (jl : String → Option ReviewData) (s : ResearchState)
    (h1 : truthyS s.draft_content = true) (h2 : revCount s < maxRev s)
    (h3 : s.force_accept_reason = none) (h4 : rv.isExn = false)
    (h5 : (reviewVerdict rv jl).decision = "REJECT") :
    (route_after_quality_check (quality_check_node now rv jl s)).1 =
      "editing" ∧
    (route_after_quality_check
      (quality_check_node now rv jl s)).2.workflow_completion_status =
      some "COMPLETED_PROTECTION" ∧
    (route_after_quality_check
      (quality_check_node now rv jl s)).2.final_decision_maker =
      some "PROTECTION_SYSTEM" ∧
    (route_after_quality_check
      (quality_check_node now rv jl s)).2.force_accept_reason =
      some "品質審核拒絕，但啟動保護機制避免完全失敗" ∧
    (route_after_quality_check
      (quality_check_node now rv jl s)).2.revision_count =
      s.revision_count := by
  rw [qc_review now rv jl s h1 h2 h4]
  have hd : (reviewUpdate (reviewVerdict rv jl)
      (qcSnapshot now (qcPre now s))).review_decision.getD "REVISE" =
      "REJECT" := by
    rw [reviewUpdate_decision]; simpa using h5
  have hfq : (reviewUpdate (reviewVerdict rv jl)
      (qcSnapshot now (qcPre now s))).force_accept_reason = none := h3
  have hne1 : (reviewUpdate (reviewVerdict rv jl)
      (qcSnapshot now (qcPre now s))).review_decision.getD "REVISE" ≠
      "FORCE_ACCEPT" := by rw [hd]; decide
  have hne2 : (reviewUpdate (reviewVerdict rv jl)
      (qcSnapshot now (qcPre now s))).review_decision.getD "REVISE" ≠
      "ACCEPT" := by rw [hd]; decide
  have hne3 : ¬((reviewUpdate (reviewVerdict rv jl)
      (qcSnapshot now (qcPre now s))).review_decision.getD "REVISE" =
      "REVISE" ∧ revCount (reviewUpdate (reviewVerdict rv jl)
      (qcSnapshot now (qcPre now s))) <
      maxRev (reviewUpdate (reviewVerdict rv jl)
      (qcSnapshot now (qcPre now s)))) := by
    intro hx
    rw [hd] at hx
    exact absurd hx.1 (by decide)
  rw [route_protection _ hfq hne1 hne2 hne3]
  refine ⟨rfl, rfl, rfl, ?_, rfl⟩
  rw [routeProtectionUpdate_force, if_pos hd]

/-- C3 witness: a first-review REJECT (revision_count still 0) ends in
`COMPLETED_PROTECTION` with the count unchanged. -/
theorem c3_reject_protection_witness :
    truthyS c1WitState.draft_content = true ∧
    revCount c1WitState < maxRev c1WitState ∧
    c1WitState.force_accept_reason = none ∧
    (reviewVerdict (.ok "\x7b\x7d") c3WitJson).decision = "REJECT" ∧
    (route_after_quality_check (quality_check_node "t" (.ok "\x7b\x7d")
      c3WitJson c1WitState)).2.workflow_completion_status =
      some "COMPLETED_PROTECTION" ∧
    (route_after_quality_check (quality_check_node "t" (.ok "\x7b\x7d")
      c3WitJson c1WitState)).2.revision_count =
      c1WitState.revision_count := by
  refine ⟨by decide, by decide, rfl, by decide, ?_, ?_⟩
  · exact (c3_reject_protection "t" (.ok "\x7b\x7d") c3WitJson c1WitState
      (by decide) (by decide) rfl rfl (by decide)).2.1
  · exact (c3_reject_protection "t" (.ok "\x7b\x7d") c3WitJson c1WitState
      (by decide) (by decide) rfl rfl (by decide)).2.2.2.2

/-- C4: submitting an empty or missing draft fails immediately with
`FAILED_NO_CONTENT` and decision REJECT; no version snapshot is saved,
no revision-history entry is appended, one error is recorded, and the
result is independent of the reviewer oracle (no reviewer call). -/
theorem c4_empty_draft_fails (now : String) (rv : KickOutcome)
    (jl : String → Option ReviewData) (s : ResearchState)
    (h : truthyS s.draft_content = false) :
    (quality_check_node now rv jl s).workflow_completion_status =
      some "FAILED_NO_CONTENT" ∧
    (quality_check_node now rv jl s).review_decision = some "REJECT" ∧
    (quality_check_node now rv jl s).version_history = s.version_history ∧
    (quality_check_node now rv jl s).revision_history =
      s.revision_history ∧
    (quality_check_node now rv jl s).errors =
      s.errors ++ ["沒有初稿可供審核"] ∧
    (∀ rv' jl', quality_check_node now rv' jl' s =
      quality_check_node now rv jl s) := by
  rw [qc_empty now rv jl s h]
  refine ⟨rfl, rfl, rfl, rfl, rfl, ?_⟩
  intro rv' jl'
  rw [qc_empty now rv' jl' s h]

/-- C4 witness: the empty-draft initial state fails with zero history. -/
theorem c4_empty_draft_fails_witness :
    truthyS initialState.draft_content = false ∧
    (quality_check_node "t" (.ok "review text") (fun _ => none)
      initialState).workflow_completion_status =
      some "FAILED_NO_CONTENT" ∧
    (quality_check_node "t" (.ok "review text") (fun _ => none)
      initialState).version_history = initialState.version_history ∧
    (quality_check_node "t" (.ok "review text") (fun _ => none)
      initialState).revision_history = initialState.revision_history := by
  refine ⟨rfl, ?_, ?_, ?_⟩
  · exact (c4_empty_draft_fails "t" (.ok "review text") (fun _ => none)
      initialState rfl).1
  · exact (c4_empty_draft_fails "t" (.ok "review text") (fun _ => none)
      initialState rfl).2.2.1
  · exact (c4_empty_draft_fails "t" (.ok "review text") (fun _ => none)
      initialState rfl).2.2.2.1

/-- C5: with non-empty review feedback, `revision_node` increments
`revision_count` by exactly one, and the increment (with the
`pre_revision` snapshot) happens before the work is delegated to
`revisionExecute`; no controller operation ever decreases
`revision_count`. -/
theorem c5_revision_count_increment :
    (∀ now a w s, truthyS s.review_feedback = true →
      revision_node now a w s =
        revisionExecute now a w (preRevisionState now s) ∧
      (preRevisionState now s).revision_count = some (revCount s + 1) ∧
      (revision_node now a w s).revision_count =
        some (revCount s + 1)) ∧
    (∀ now a w s, revCount s ≤ revCount (revision_node now a w s)) ∧
    (∀ now rv jl s,
      revCount (quality_check_node now rv jl s) = revCount s) ∧
    (∀ s, revCount (route_after_quality_check s).2 = revCount s) ∧
    (∀ s, revCount (route_after_revision s).2 = revCount s) ∧
    (∀ s c t d now,
      revCount (save_version_to_history s c t d now) = revCount s) := by
  refine ⟨?_, ?_, revCount_qc, ?_, fun s => rfl, fun s c t d now => rfl⟩
  · intro now a w s h
    refine ⟨?_, preRevision_rc now s, (revision_node_rc now a w s h).1⟩
    unfold revision_node
    rw [if_neg (by simp [h])]
  · intro now a w s
    cases hf : truthyS s.review_feedback with
    | true =>
      rw [revCount_revision_node now a w s hf]
      omega
    | false =>
      unfold revision_node
      rw [if_pos hf]
      exact Nat.le_refl _
  · intro s
    unfold revCount
    rw [route_rc]

/-- C5 witness: one revision from count 0 with failing executors still
yields `revision_count = 1`. -/
theorem c5_revision_count_increment_witness :
    truthyS c5WitState.review_feedback = true ∧
    (revision_node "t" .noResult (fun _ => .noResult)
      c5WitState).revision_count = some 1 := by
  refine ⟨by decide, ?_⟩
  exact (c5_revision_count_increment.1 "t" .noResult (fun _ => .noResult)
    c5WitState (by decide)).2.2

/-- C6: under the run invariant (`version_history` holds versions
`1..k` and `current_version = k`, true of the initial state), each call
of `save_version_to_history` appends exactly one record whose version is
the previous record's version plus one, preserving the invariant — so
versions within a run start at 1 and are strictly increasing and
contiguous. -/
theorem c6_monotonic_versioning (s : ResearchState) (c t d now : String)
    (h : versionInv s) :
    (save_version_to_history s c t d now).version_history.length =
      s.version_history.length + 1 ∧
    (save_version_to_history s c t d now).version_history.map
        VersionRecord.version =
      s.version_history.map VersionRecord.version ++
        [s.version_history.length + 1] ∧
    versionInv (save_version_to_history s c t d now) ∧
    versionInv initialState := by
  obtain ⟨h1, h2⟩ := h
  refine ⟨by simp [save_version_to_history], ?_, ⟨?_, ?_⟩, ⟨rfl, rfl⟩⟩
  · simp [save_version_to_history, h2]
  · simp [save_version_to_history, h1, h2, List.range_succ]
  · simp [save_version_to_history, h2]

/-- C6 witness: the first snapshot of a run gets version 1. -/
theorem c6_monotonic_versioning_witness :
    versionInv initialState ∧
    (save_version_to_history initialState "內容" "draft" "初稿"
      "t").version_history.map VersionRecord.version = [1] := by
  have h := c6_monotonic_versioning initialState "內容" "draft" "初稿" "t"
    ⟨rfl, rfl⟩
  exact ⟨⟨rfl, rfl⟩, by simpa using h.2.1⟩

/-- C7: when the max-revisions limit triggers the forced acceptance,
`quality_check_node` appends exactly one synthetic history entry with
decision `FORCE_ACCEPT`, fallback score 7 and decision maker `SYSTEM`,
and sets `force_accept_reason`, `COMPLETED_FORCE_ACCEPT` and
`final_decision_maker = SYSTEM`. -/
theorem c7_force_accept_record (now : String) (rv : KickOutcome)
    (jl : String → Option ReviewData) (s : ResearchState)
    (h1 : truthyS s.draft_content = true) (h2 : maxRev s ≤ revCount s) :
    (∃ e : RevisionHistoryEntry,
      (quality_check_node now rv jl s).revision_history =
        s.revision_history ++ [e] ∧
      e.decision = "FORCE_ACCEPT" ∧ e.quality_score = 7 ∧
      e.decision_maker = "SYSTEM" ∧ e.revision_number = revCount s + 1) ∧
    (quality_check_node now rv jl s).force_accept_reason =
      some ("達到最大修訂次數 (" ++ toString (maxRev s) ++
            ")，系統強制接受以確保流程完成") ∧
    (quality_check_node now rv jl s).workflow_completion_status =
      some "COMPLETED_FORCE_ACCEPT" ∧
    (quality_check_node now rv jl s).final_decision_maker =
      some "SYSTEM" := by
  rw [qc_force now rv jl s h1 h2]
  exact ⟨⟨_, rfl, rfl, rfl, rfl, rfl⟩, rfl, rfl, rfl⟩

/-- C7 witness: the synthetic FORCE_ACCEPT entry at the limit. -/
theorem c7_force_accept_record_witness :
    truthyS c2WitState.draft_content = true ∧
    maxRev c2WitState ≤ revCount c2WitState ∧
    (∃ e : RevisionHistoryEntry,
      (quality_check_node "t" .noResult (fun _ => none)
        c2WitState).revision_history =
        c2WitState.revision_history ++ [e] ∧
      e.decision = "FORCE_ACCEPT" ∧ e.quality_score = 7 ∧
      e.decision_maker = "SYSTEM" ∧ e.revision_number = 3) := by
  refine ⟨by decide, by decide, ?_⟩
  exact (c7_force_accept_record "t" .noResult (fun _ => none) c2WitState
    (by decide) (by decide)).1

/-- C8: an unparseable reviewer response — no result, empty raw text, no
brace-delimited region, or a JSON decoding failure — always yields a
default verdict with decision REVISE and non-empty explanatory
feedback, and a REVISE verdict below the revision limit keeps the loop
going (`route_after_quality_check` answers `"revision"`). -/
theorem c8_degraded_verdict_parsing :
    (∀ jl, reviewVerdict .noResult jl = failVerdict) ∧
    (∀ jl, reviewVerdict (.ok "") jl = failVerdict) ∧
    (failVerdict.decision = "REVISE" ∧ failVerdict.feedback ≠ "") ∧
    (∀ raw jl, raw ≠ "" →
      ¬(strContainsChar raw lbrace ∧ strContainsChar raw rbrace) →
      reviewVerdict (.ok raw) jl =
        { decision := "REVISE", feedback := raw, quality_score := 5,
          revision_priority := "MEDIUM", specific_issues := [] }) ∧
    (∀ raw jl, raw ≠ "" →
      (strContainsChar raw lbrace ∧ strContainsChar raw rbrace) →
      jl (extractJson raw) = none →
      reviewVerdict (.ok raw) jl =
        { decision := "REVISE",
          feedback := "JSON解析失敗，原始審核結果：" ++ raw,
          quality_score := 5, revision_priority := "MEDIUM",
          specific_issues := ["JSON解析問題"] }) ∧
    (∀ now rv jl s, truthyS s.draft_content = true →
      revCount s < maxRev s → s.force_accept_reason = none →
      rv.isExn = false → (reviewVerdict rv jl).decision = "REVISE" →
      (route_after_quality_check (quality_check_node now rv jl s)).1 =
        "revision") := by
  refine ⟨fun jl => rfl, fun jl => rfl, ⟨rfl, by decide⟩, ?_, ?_, ?_⟩
  · intro raw jl hraw hb
    simp [reviewVerdict, parseVerdict, hraw, hb]
  · intro raw jl hraw hb hj
    simp [reviewVerdict, parseVerdict, hraw, hb, hj]
  · intro now rv jl s h1 h2 h3 h4 h5
    rw [qc_review now rv jl s h1 h2 h4]
    have hd : (reviewUpdate (reviewVerdict rv jl)
        (qcSnapshot now (qcPre now s))).review_decision.getD "REVISE" =
        "REVISE" := by
      rw [reviewUpdate_decision]; simpa using h5
    have hfq : (reviewUpdate (reviewVerdict rv jl)
        (qcSnapshot now (qcPre now s))).force_accept_reason = none := h3
    rw [route_revise _ hfq hd h2]

/-- C8 witness: the braceless-text and JSON-failure default verdicts at
concrete inputs. -/
theorem c8_degraded_verdict_parsing_witness :
    ("no json here" ≠ "") ∧
    ¬(strContainsChar "no json here" lbrace ∧
      strContainsChar "no json here" rbrace) ∧
    reviewVerdict (.ok "no json here") (fun _ => none) =
      { decision := "REVISE", feedback := "no json here",
        quality_score := 5, revision_priority := "MEDIUM",
        specific_issues := [] } ∧
    reviewVerdict (.ok "bad \x7b json \x7d") (fun _ => none) =
      { decision := "REVISE",
        feedback := "JSON解析失敗，原始審核結果：bad \x7b json \x7d",
        quality_score := 5, revision_priority := "MEDIUM",
        specific_issues := ["JSON解析問題"] } := by
  refine ⟨by decide, by decide, ?_, ?_⟩
  · exact c8_degraded_verdict_parsing.2.2.2.1 "no json here"
      (fun _ => none) (by decide) (by decide)
  · exact c8_degraded_verdict_parsing.2.2.2.2.1 "bad \x7b json \x7d"
      (fun _ => none) (by decide) (by decide) rfl

/-- C9: `route_after_revision` routes every state back to
`quality_check`; no path from a revision skips re-review. -/
theorem c9_route_after_revision_quality_check (s : ResearchState) :
    (route_after_revision s).1 = "quality_check" := rfl

/-- C10: an empty draft makes `quality_check_node` record REJECT with
`FAILED_NO_CONTENT`, and the subsequent routing step returns
`"editing"` and overwrites the status — to `COMPLETED_PROTECTION` when
no forced accept was pending — so the composed step never leaves the
run in `FAILED_NO_CONTENT`. -/
theorem c10_empty_draft_protection (now : String) (rv : KickOutcome)
    (jl : String → Option ReviewData) (s : ResearchState)
    (h : truthyS s.draft_content = false) :
    (quality_check_node now rv jl s).review_decision = some "REJECT" ∧
    (quality_check_node now rv jl s).workflow_completion_status =
      some "FAILED_NO_CONTENT" ∧
    (route_after_quality_check (quality_check_node now rv jl s)).1 =
      "editing" ∧
    (route_after_quality_check
      (quality_check_node now rv jl s)).2.workflow_completion_status ≠
      some "FAILED_NO_CONTENT" ∧
    (s.force_accept_reason = none →
      (route_after_quality_check
        (quality_check_node now rv jl s)).2.workflow_completion_status =
        some "COMPLETED_PROTECTION") := by
  rw [qc_empty now rv jl s h]
  have hdec : (emptyDraftUpdate (qcPre now s)).review_decision.getD
      "REVISE" = "REJECT" := rfl
  by_cases hf : s.force_accept_reason = none
  · have hfq : (emptyDraftUpdate (qcPre now s)).force_accept_reason =
        none := hf
    rw [route_protection _ hfq (by rw [hdec]; decide) (by rw [hdec]; decide)
      (by intro hx; rw [hdec] at hx; exact absurd hx.1 (by decide))]
    exact ⟨rfl, rfl, rfl, by rw [show (("editing",
      routeProtectionUpdate (emptyDraftUpdate
        (qcPre now s)))).2.workflow_completion_status =
      some "COMPLETED_PROTECTION" from rfl]; decide, fun _ => rfl⟩
  · have hfq : (emptyDraftUpdate (qcPre now s)).force_accept_reason ≠
        none := hf
    rw [route_force _ hfq]
    exact ⟨rfl, rfl, rfl, by rw [show (("editing",
      routeForceUpdate (emptyDraftUpdate
        (qcPre now s)))).2.workflow_completion_status =
      some "COMPLETED_FORCE_ACCEPT" from rfl]; decide,
      fun hnone => absurd hnone hf⟩

/-- C10 witness: the empty-draft initial state ends the composed step in
`COMPLETED_PROTECTION`. -/
theorem c10_empty_draft_protection_witness :
    truthyS initialState.draft_content = false ∧
    initialState.force_accept_reason = none ∧
    (route_after_quality_check (quality_check_node "t" .noResult
      (fun _ => none) initialState)).1 = "editing" ∧
    (route_after_quality_check (quality_check_node "t" .noResult
      (fun _ => none) initialState)).2.workflow_completion_status =
      some "COMPLETED_PROTECTION" := by
  refine ⟨rfl, rfl, ?_, ?_⟩
  · exact (c10_empty_draft_protection "t" .noResult (fun _ => none)
      initialState rfl).2.2.1
  · exact (c10_empty_draft_protection "t" .noResult (fun _ => none)
      initialState rfl).2.2.2.2 rfl
